import Mathlib

/-
Verification of the Typst.NET embedding boundary (crate `typst-net-core`).

Shallow embedding conventions:
* A filesystem path is a list of components relative to the filesystem
  root `/`; all configured roots (workspace root, package-repository root)
  are modelled as absolute paths, which the library's constructor
  validation makes the realistic case.
* There are no symlinks in the model, so OS-level resolution of a path
  (used by `Path::exists`) is the lexical resolution `canonicalize` that
  removes `.` and resolves `..` (clamping at `/`).
* `std::path::absolute` is modelled by `pathAbsolute`: per its
  documentation it removes `.` components but does NOT resolve `..` and
  does NOT touch symlinks.
* Source text is modelled at character granularity (`List Char`); byte
  offsets of engine spans become character offsets, and `length` in
  bytes becomes length in characters.
* External engine operations (`typst::compile`, `typst_svg::svg`,
  `typst_pdf::pdf`, the span table of a source) are parameters of the
  functions that call them; the repository code under verification is
  everything around those calls.
-/

namespace TypstNet

/-- A filesystem path: components below `/`. -/
abbrev Path := List String

/-- Model of `std::path::absolute` applied to an absolute path: `.`
components are removed; `..` components are kept (the Rust documentation
is explicit that `..` is not resolved and symlinks are not consulted). -/
def pathAbsolute (p : Path) : Path :=
  p.filter (fun c => !(c = "."))

/-- One step of lexical path resolution: `.` is dropped, `..` removes the
last component (staying put at the root), anything else is appended. -/
def canonStep (out : List String) (c : String) : List String :=
  if c = "." then out
  else if c = ".." then out.dropLast
  else out ++ [c]

/-- OS-level resolution of an absolute path in the symlink-free model:
resolves `.` and `..` lexically, clamping `..` at `/` (POSIX `"/.." = "/"`).
Used to interpret `Path::exists` against the modelled filesystem. -/
def canonicalize (p : Path) : Path :=
  p.foldl canonStep []

/-- Model of typst's `VirtualPath::new` normalisation (dependency code the
crate calls to build every file identity): root and prefix components are
ignored, `.` is dropped, `..` pops the last pushed component and is ignored
at the virtual root, normal components are pushed.  The stored rootless
path therefore never contains `.` or `..`. -/
def VirtualPath.new (raw : List String) : List String :=
  raw.foldl canonStep []

/-- A package specification, `@namespace/name:version`.  Each field is
modelled as the list of path components that `Path::join` would split its
textual form into (a well-formed specification has exactly one component
per field, but `resolve_path` receives the fields as opaque strings). -/
structure PackageSpec where
  nspace : List String
  name : List String
  version : List String
deriving DecidableEq, BEq, Repr

/-- Model of `typst::syntax::FileId`: an optional package specification plus the
rootless components of the normalised virtual path. -/
structure FileId where
  pkg : Option PackageSpec
  vpath : List String
deriving DecidableEq, BEq, Repr

/-- Source text, at character granularity. -/
abbrev Text := List Char

/-- The filesystem: maps a canonical absolute path to the text content of
the file stored there (`none` = no such file). -/
abbrev FS := Path → Option Text

/-- Model of `Path::exists` in the symlink-free model: the OS resolves `.`/`..`
and checks for an entry. -/
def pathExists (fs : FS) (p : Path) : Bool :=
  (fs (canonicalize p)).isSome

/-- Model of `typst::diag::FileError`, restricted to the variants the crate
produces. `IoError` stands for `FileError::from_io` on a failed read. -/
inductive FileError where
  | NotFound (path : Path)
  | AccessDenied
  | IoError (path : Path)
deriving DecidableEq, Repr

/-- Model of `typst::syntax::Source`: an id plus its text. -/
structure Source where
  id : FileId
  text : Text
deriving DecidableEq, Repr

/-- State of `BackendWorld` (typst_backend.rs).  Fonts and the library
value are irrelevant to the verified operations and are omitted; the two
caches and the path configuration are kept.  `HashMap` is modelled as an
association list. -/
structure BackendWorld where
  root : Path
  main_source : Source
  main_id : FileId
  source_cache : List (FileId × Source)
  binary_cache : List (FileId × List Nat)
  package_path : Option Path
deriving Repr

/-- Model of `BackendWorld::resolve_path` (typst_backend.rs lines 160-198),
translated clause by clause:
* package identity, package root configured: join
  repository-root/namespace/name/version/vpath, `NotFound` if the joined
  path does not exist, otherwise `Ok`;
* package identity, no package root: `AccessDenied`;
* plain identity: join root/vpath, apply `std::path::absolute` to both
  the root and the candidate, `AccessDenied` if the absolute candidate
  does not start with the absolute root (component-wise), then `NotFound`
  if the candidate does not exist, otherwise `Ok`. -/
def BackendWorld.resolve_path (w : BackendWorld) (fs : FS) (id : FileId) :
    Except FileError Path :=
  match id.pkg with
  | some spec =>
    match w.package_path with
    | some pkg_root =>
      let path := pkg_root ++ spec.nspace ++ spec.name ++ spec.version ++ id.vpath
      if !(pathExists fs path) then .error (.NotFound path)
      else .ok path
    | none => .error .AccessDenied
  | none =>
    let path := w.root ++ id.vpath
    let absolute_root := pathAbsolute w.root
    let absolute_path := pathAbsolute path
    if !(absolute_root.isPrefixOf absolute_path) then .error .AccessDenied
    else if !(pathExists fs path) then .error (.NotFound path)
    else .ok path

/-! ## Line/column mapping (model of `typst::syntax::Lines`)

Dependency code the diagnostic translator calls: `byte_to_line` returns
the 0-based index of the last line start at or before the offset (defined
whenever the offset is within the text), `byte_to_column` the number of
characters between that line start and the offset. -/

/-- Offsets at which lines start: 0, plus the offset after every newline. -/
def lineStarts (t : Text) : List Nat :=
  0 :: ((List.range t.length).filter
    (fun i => t.get? i = some (Char.ofNat 10))).map (fun i => i + 1)

/-- Model of `Lines::byte_to_line`: 0-based line of an offset, `none` past the end. -/
def byte_to_line (t : Text) (b : Nat) : Option Nat :=
  if b ≤ t.length then
    some (((lineStarts t).filter (fun s => s ≤ b)).length - 1)
  else none

/-- Model of `Lines::line_to_byte`: offset of the start of a 0-based line. -/
def line_to_byte (t : Text) (l : Nat) : Option Nat :=
  (lineStarts t).get? l

/-- Model of `Lines::byte_to_column`: 0-based column of an offset, i.e. its distance
from the start of its line; fails when any intermediate lookup fails. -/
def byte_to_column (t : Text) (b : Nat) : Option Nat :=
  match byte_to_line t b with
  | none => none
  | some l =>
    match line_to_byte t l with
    | none => none
    | some s => some (b - s)

/-! ## The Host's text-source capability -/

/-- A diagnostic span, as seen through the engine interface the translator
uses: `id` is `Span::id` and `range` records whether `Source::range`
resolves the span to a byte range (the span table of a source is engine
state, so the model stores its answer with the span). -/
structure Span where
  id : Option FileId
  range : Option (Nat × Nat)
deriving DecidableEq, Repr

/-- Model of `Source::range`: resolve a span to a byte range within the source. -/
def Source.range (_s : Source) (span : Span) : Option (Nat × Nat) :=
  span.range

/-- Model of `World::source for BackendWorld` (typst_backend.rs lines 246-266).
The Rust method takes `&self`; the model returns the resulting world
explicitly so that frame claims can be stated.  Main identity: answered
from the in-memory main source.  Cached identity: answered from the
cache.  Otherwise: resolve through the sandbox and read the file now —
the comment in the source notes that no cache insertion happens. -/
def BackendWorld.source (w : BackendWorld) (fs : FS) (id : FileId) :
    (Except FileError Source) × BackendWorld :=
  if id = w.main_id then (.ok w.main_source, w)
  else
    match w.source_cache.lookup id with
    | some source => (.ok source, w)
    | none =>
      match w.resolve_path fs id with
      | .error e => (.error e, w)
      | .ok path =>
        match fs (canonicalize path) with
        | some text => (.ok ⟨id, text⟩, w)
        | none => (.error (.IoError path), w)

/-! ## Diagnostics -/

/-- Model of `typst::diag::Severity`, as used by the crate. -/
inductive Severity where
  | Error
  | Warning
deriving DecidableEq, Repr

/-- Model of `typst::diag::SourceDiagnostic`: severity, span, message, hints. -/
structure SourceDiagnostic where
  severity : Severity
  span : Span
  message : String
  hints : List String
deriving DecidableEq, Repr

/-- Model of `DiagnosticSeverity` of typst_backend.rs. -/
inductive DiagnosticSeverity where
  | Error
  | Warning
deriving DecidableEq, Repr

/-- Model of `BackendLocation` of typst_backend.rs (1-indexed line and column). -/
structure BackendLocation where
  line : Nat
  column : Nat
  length : Nat
deriving DecidableEq, Repr

/-- Model of `BackendDiagnostic` of typst_backend.rs. -/
structure BackendDiagnostic where
  severity : DiagnosticSeverity
  message : String
  location : Option BackendLocation
deriving DecidableEq, Repr

/-- Model of `convert_diagnostic` (typst_backend.rs lines 376-424): map severity,
append each hint to the message on its own `Hint:` line, and resolve the
span to a 1-indexed location: take the 0-based line/column of the range
start, add 1 to each with fallback 0, and keep the location only when the
resulting line is positive. -/
def convert_diagnostic (fs : FS) (diag : SourceDiagnostic)
    (world : BackendWorld) : BackendDiagnostic :=
  let severity := match diag.severity with
    | .Error => DiagnosticSeverity.Error
    | .Warning => DiagnosticSeverity.Warning
  let message := diag.hints.foldl
    (fun m h => m ++ "\nHint: " ++ h) diag.message
  let location : Option BackendLocation :=
    match diag.span.id with
    | none => none
    | some id =>
      match (world.source fs id).1 with
      | .error _ => none
      | .ok source =>
        match source.range diag.span with
        | none => none
        | some (rstart, rend) =>
          let line := ((byte_to_line source.text rstart).map
            (fun l => l + 1)).getD 0
          let col := ((byte_to_column source.text rstart).map
            (fun c => c + 1)).getD 0
          let length := rend - rstart
          if line > 0 then some ⟨line, col, length⟩ else none
  { severity := severity, message := message, location := location }

/-! ## Compilation -/

/-- A compiled page.  Its layout content is engine state; rendering it is
delegated to an external renderer passed as a parameter. -/
structure Page where
  tag : Nat
deriving DecidableEq, Repr

/-- Model of `typst::layout::PagedDocument`: an ordered sequence of pages. -/
structure PagedDocument where
  pages : List Page
deriving DecidableEq, Repr

/-- Model of `BackendDocument` of typst_backend.rs: wrapper around the compiled
document. -/
structure BackendDocument where
  inner : PagedDocument
deriving DecidableEq, Repr

/-- Model of `typst::diag::Warned`: engine output plus warnings, the result shape
of `typst::compile`. -/
structure Warned (α : Type) where
  output : Except (List SourceDiagnostic) α
  warnings : List SourceDiagnostic

/-- Model of `BackendCompileResult` of typst_backend.rs. -/
structure BackendCompileResult where
  success : Bool
  document : Option BackendDocument
  diagnostics : List BackendDiagnostic

/-- Model of `BackendWorld::compile` (typst_backend.rs lines 200-231), parametrised
by the engine's answer `warned`: convert the warnings, then on success
return them alone with the wrapped document, and on failure return the
converted errors followed by the converted warnings with no document. -/
def BackendWorld.compile (w : BackendWorld) (fs : FS)
    (warned : Warned PagedDocument) : BackendCompileResult :=
  let warnings := warned.warnings.map (fun diag => convert_diagnostic fs diag w)
  match warned.output with
  | .ok document =>
    { success := true
      document := some ⟨document⟩
      diagnostics := warnings }
  | .error errors =>
    let all_diagnostics :=
      (errors.map (fun diag => convert_diagnostic fs diag w)) ++ warnings
    { success := false
      document := none
      diagnostics := all_diagnostics }

/-! ## Document rendering (typst_backend.rs lines 316-368)

The SVG and PDF generators are the wrapped engine; they enter as the
parameters `svgF` and `pdfF`. -/

/-- Model of `BackendDocument::page_count`. -/
def BackendDocument.page_count (d : BackendDocument) : Nat :=
  d.inner.pages.length

/-- Model of `BackendDocument::render_page_svg`: out-of-bounds indices are a typed
error, in-bounds pages are rendered by the external generator. -/
def BackendDocument.render_page_svg (svgF : Page → List Nat)
    (d : BackendDocument) (page_index : Nat) : Except String (List Nat) :=
  if h : d.inner.pages.length ≤ page_index then
    .error ("Page index " ++ toString page_index ++
      " out of bounds (document has " ++ toString d.inner.pages.length ++
      " pages)")
  else
    .ok (svgF (d.inner.pages.get ⟨page_index, Nat.lt_of_not_le h⟩))

/-- Model of `BackendDocument::render_all_pages_svg`: a document with no pages is a
typed error, otherwise every page is rendered in order. -/
def BackendDocument.render_all_pages_svg (svgF : Page → List Nat)
    (d : BackendDocument) : Except String (List (List Nat)) :=
  if d.inner.pages.isEmpty then
    .error "Document has no pages to render"
  else
    .ok (d.inner.pages.map svgF)

/-- Model of `BackendDocument::render_pdf`: delegate to the external generator and
join the error messages on failure. -/
def BackendDocument.render_pdf (pdfF : PagedDocument → Except (List String) (List Nat))
    (d : BackendDocument) : Except String (List Nat) :=
  match pdfF d.inner with
  | .ok bytes => .ok bytes
  | .error errors =>
    .error ("PDF rendering failed: " ++ String.intercalate "; " errors)

/-! ## FFI record types (types.rs)

Raw pointers are modelled as `Option` values: `none` is the null pointer,
`some v` a live pointer owning `v`.  A Rust `Vec`'s data pointer is never
null, even for an empty vector, so conversion from an owned vector always
yields `some`. -/

/-- Model of `DiagnosticSeverity` of types.rs (`Error = 0, Warning = 1, Hint = 2`). -/
inductive FfiSeverity where
  | Error
  | Warning
  | Hint
deriving DecidableEq, Repr

/-- Model of `SourceLocation` of types.rs: 1-indexed line/column, span length;
all-zero means "unavailable". -/
structure SourceLocation where
  line : Nat
  column : Nat
  length : Nat
deriving DecidableEq, Repr

instance : Inhabited SourceLocation := ⟨⟨0, 0, 0⟩⟩

/-- Model of `Buffer` of types.rs: data pointer plus length. -/
structure Buffer where
  data : Option (List Nat)
  len : Nat
deriving DecidableEq, Repr

/-- Model of `BufferArray` of types.rs: pointer to a sequence of Buffers plus count. -/
structure BufferArray where
  buffers : Option (List Buffer)
  len : Nat
deriving DecidableEq, Repr

/-- Model of `Diagnostic` of types.rs: severity, message pointer + byte length,
location by value. -/
structure Diagnostic where
  severity : FfiSeverity
  message : Option (List Nat)
  message_len : Nat
  location : SourceLocation
deriving DecidableEq, Repr

/-! ## Memory bridge (memory.rs) -/

/-- The bytes of a string, at character granularity (model of
`String::into_bytes`). -/
def strBytes (s : String) : List Nat :=
  s.data.map Char.toNat

/-- Model of `string_to_buffer`: hand the string's bytes across the boundary; the
captured vector pointer is non-null. -/
def string_to_buffer (s : String) : Buffer :=
  let bytes := strBytes s
  { data := some bytes, len := bytes.length }

/-- Model of `vec_to_buffer`: hand an owned byte vector across the boundary; the
captured vector pointer is non-null. -/
def vec_to_buffer (v : List Nat) : Buffer :=
  { data := some v, len := v.length }

/-- Model of `vecs_to_buffer_array`: convert each inner vector, then hand the outer
vector of Buffers across the boundary. -/
def vecs_to_buffer_array (vecs : List (List Nat)) : BufferArray :=
  let buffers := vecs.map vec_to_buffer
  { buffers := some buffers, len := buffers.length }

/-- Model of `create_diagnostic` (memory.rs lines 53-74): message through the
string path, a missing location becomes the all-zero default. -/
def create_diagnostic (severity : FfiSeverity) (message : String)
    (location : Option (Nat × Nat × Nat)) : Diagnostic :=
  let message_buf := string_to_buffer message
  let loc := match location with
    | some (line, column, length) => SourceLocation.mk line column length
    | none => default
  { severity := severity
    message := message_buf.data
    message_len := message_buf.len
    location := loc }

/-- Model of `diagnostics_to_array` (memory.rs lines 79-92): an empty collection
becomes a null pointer with count zero — no allocation is made; otherwise
the collection is handed over as one allocation with its length. -/
def diagnostics_to_array (diagnostics : List Diagnostic) :
    Option (List Diagnostic) × Nat :=
  if diagnostics.isEmpty then (none, 0)
  else (some diagnostics, diagnostics.length)

/-! ## Compiler session (compiler.rs) -/

/-- Model of `DocumentInstance` of compiler.rs. -/
structure DocumentInstance where
  backend_doc : BackendDocument
deriving DecidableEq, Repr

/-- Model of `CompileResult` of types.rs: success flag, diagnostics pointer +
count, opaque document pointer. -/
structure CompileResult where
  success : Bool
  diagnostics : Option (List Diagnostic)
  diagnostics_len : Nat
  document : Option DocumentInstance

/-- Model of `convert_backend_diagnostic` (compiler.rs lines 159-170). -/
def convert_backend_diagnostic (backend_diag : BackendDiagnostic) : Diagnostic :=
  let severity := match backend_diag.severity with
    | .Error => FfiSeverity.Error
    | .Warning => FfiSeverity.Warning
  let location := backend_diag.location.map
    (fun loc => (loc.line, loc.column, loc.length))
  create_diagnostic severity backend_diag.message location

/-- Model of `CompilerInstance::compile` (compiler.rs lines 54-79), parametrised by
the engine's answer: run the backend compile, convert the diagnostics to
FFI records, flatten them, and box the document when present (a boxed
document is a non-null pointer). -/
def CompilerInstance.compile (w : BackendWorld) (fs : FS)
    (warned : Warned PagedDocument) : CompileResult :=
  let backend_result := w.compile fs warned
  let diagnostics := backend_result.diagnostics.map convert_backend_diagnostic
  let arr := diagnostics_to_array diagnostics
  let document := backend_result.document.map (fun d => DocumentInstance.mk d)
  { success := backend_result.success
    diagnostics := arr.1
    diagnostics_len := arr.2
    document := document }

/-- Model of `DocumentInstance::page_count`. -/
def DocumentInstance.page_count (d : DocumentInstance) : Nat :=
  d.backend_doc.page_count

/-! ## Document boundary operations (document.rs) -/

/-- The null Buffer returned on every failure path of document.rs. -/
def nullBuffer : Buffer := { data := none, len := 0 }

/-- The null BufferArray returned on every failure path of document.rs. -/
def nullBufferArray : BufferArray := { buffers := none, len := 0 }

/-- Model of `document_page_count` (document.rs lines 10-17): 0 for a null
pointer. -/
def document_page_count (document : Option DocumentInstance) : Nat :=
  match document with
  | none => 0
  | some doc => doc.page_count

/-- Model of `document_render_page_svg` (document.rs lines 25-45): a null pointer
or a render error yields the null Buffer. -/
def document_render_page_svg (svgF : Page → List Nat)
    (document : Option DocumentInstance) (page_index : Nat) : Buffer :=
  match document with
  | none => nullBuffer
  | some doc =>
    match doc.backend_doc.render_page_svg svgF page_index with
    | .ok svg_bytes => vec_to_buffer svg_bytes
    | .error _ => nullBuffer

/-- Model of `document_render_all_pages_svg` (document.rs lines 52-69): a null
pointer or a render error yields the null BufferArray. -/
def document_render_all_pages_svg (svgF : Page → List Nat)
    (document : Option DocumentInstance) : BufferArray :=
  match document with
  | none => nullBufferArray
  | some doc =>
    match doc.backend_doc.render_all_pages_svg svgF with
    | .ok svg_pages => vecs_to_buffer_array svg_pages
    | .error _ => nullBufferArray

/-- Model of `document_render_pdf` (document.rs lines 76-91): a null pointer or a
render error yields the null Buffer. -/
def document_render_pdf (pdfF : PagedDocument → Except (List String) (List Nat))
    (document : Option DocumentInstance) : Buffer :=
  match document with
  | none => nullBuffer
  | some doc =>
    match doc.backend_doc.render_pdf pdfF with
    | .ok pdf_bytes => vec_to_buffer pdf_bytes
    | .error _ => nullBuffer

/-! ## Public C surface (lib.rs lines 196-247): thin delegating wrappers;
the opaque `*const c_void` cast is the identity in the model. -/

/-- Model of `typst_net_document_page_count`. -/
def typst_net_document_page_count (document : Option DocumentInstance) : Nat :=
  document_page_count document

/-- Model of `typst_net_document_render_svg_page`. -/
def typst_net_document_render_svg_page (svgF : Page → List Nat)
    (document : Option DocumentInstance) (page_index : Nat) : Buffer :=
  document_render_page_svg svgF document page_index

/-- Model of `typst_net_document_render_svg_all`. -/
def typst_net_document_render_svg_all (svgF : Page → List Nat)
    (document : Option DocumentInstance) : BufferArray :=
  document_render_all_pages_svg svgF document

/-- Model of `typst_net_document_render_pdf`. -/
def typst_net_document_render_pdf
    (pdfF : PagedDocument → Except (List String) (List Nat))
    (document : Option DocumentInstance) : Buffer :=
  document_render_pdf pdfF document

/-! ## Helper lemmas on paths -/

theorem canonStep_keeps (out : List String) (c : String)
    (h : ∀ x ∈ out, x ≠ "." ∧ x ≠ "..") :
    ∀ x ∈ canonStep out c, x ≠ "." ∧ x ≠ ".." := by
  intro x hx
  unfold canonStep at hx
  by_cases h1 : c = "."
  · rw [if_pos h1] at hx
    exact h x hx
  · rw [if_neg h1] at hx
    by_cases h2 : c = ".."
    · rw [if_pos h2] at hx
      exact h x (List.mem_of_mem_dropLast hx)
    · rw [if_neg h2] at hx
      rcases List.mem_append.1 hx with h3 | h3
      · exact h x h3
      · rcases List.mem_singleton.1 h3 with rfl
        exact ⟨h1, h2⟩

theorem foldl_canonStep_keeps (raw : List String) :
    ∀ out, (∀ x ∈ out, x ≠ "." ∧ x ≠ "..") →
      ∀ x ∈ raw.foldl canonStep out, x ≠ "." ∧ x ≠ ".." := by
  induction raw with
  | nil =>
    intro out h
    simpa using h
  | cons c rest ih =>
    intro out h
    exact ih (canonStep out c) (canonStep_keeps out c h)

/-- typst's virtual-path normalisation never leaves a `.` or `..`
component in the stored rootless path. -/
theorem VirtualPath.new_no_dots (raw : List String) :
    ∀ x ∈ VirtualPath.new raw, x ≠ "." ∧ x ≠ ".." :=
  foldl_canonStep_keeps raw [] (by simp)

theorem pathAbsolute_append (l r : Path) :
    pathAbsolute (l ++ r) = pathAbsolute l ++ pathAbsolute r :=
  List.filter_append _ _

theorem isPrefixOf_append_self (l t : List String) :
    l.isPrefixOf (l ++ t) = true := by
  rw [List.isPrefixOf_iff_prefix]
  exact List.prefix_append l t

/-- For an identity without a package specification the `AccessDenied`
branch of `resolve_path` is unreachable: `std::path::absolute` removes
only `.` components, so the absolute candidate is the absolute root with
the virtual path appended and the component-prefix test always passes. -/
theorem resolve_path_no_pkg (w : BackendWorld) (fs : FS) (v : List String) :
    w.resolve_path fs ⟨none, v⟩ =
      if pathExists fs (w.root ++ v) then .ok (w.root ++ v)
      else .error (.NotFound (w.root ++ v)) := by
  have hpre : (pathAbsolute w.root).isPrefixOf (pathAbsolute (w.root ++ v)) = true := by
    rw [pathAbsolute_append]
    exact isPrefixOf_append_self _ _
  cases hex : pathExists fs (w.root ++ v) <;>
    simp [BackendWorld.resolve_path, hpre, hex]

/-! ## Claim C1: workspace path resolution and `..` -/

/-- C1 counterexample.  The claim states that a virtual path whose `..`
segments would take the joined path outside the workspace root is
rejected with `AccessDenied`.  Concrete refutation: workspace root
`/home/ws`, written path `../main.typ`.  Resolving `..` literally would
leave the root (first conjunct), yet resolution does not fail with
`AccessDenied`: typst's virtual-path normalisation clamps the `..`, and
the code resolves `/home/ws/main.typ` successfully (second conjunct). -/
theorem C1_counterexample :
    (canonicalize ["home", "ws"]).isPrefixOf
        (canonicalize (["home", "ws"] ++ ["..", "main.typ"])) = false ∧
    BackendWorld.resolve_path
      { root := ["home", "ws"]
        main_source := ⟨⟨none, ["main.typ"]⟩, []⟩
        main_id := ⟨none, ["main.typ"]⟩
        source_cache := []
        binary_cache := []
        package_path := none }
      (fun p => if p = ["home", "ws", "main.typ"] then some "= hi".data else none)
      ⟨none, VirtualPath.new ["..", "main.typ"]⟩
      = .ok ["home", "ws", "main.typ"] ∧
    (Except.ok ["home", "ws", "main.typ"] : Except FileError Path)
      ≠ .error .AccessDenied := by
  refine ⟨by decide, by rfl, by simp⟩

/-- C1 (amended).  For every file identity without a package
specification whose virtual path was built by typst's normalisation:
the stored virtual path never contains a `..` segment (normalisation
clamps `..` at the virtual root), resolution never fails with
`AccessDenied` (the `std::path::absolute` comparison resolves neither
`..` nor symlinks and its component-prefix test always passes), and
resolution returns the joined path workspace-root/virtual-path exactly
when that path exists and `NotFound` otherwise. -/
theorem C1_resolve_workspace (w : BackendWorld) (fs : FS) (raw : List String) :
    (∀ x ∈ VirtualPath.new raw, x ≠ "..") ∧
    w.resolve_path fs ⟨none, VirtualPath.new raw⟩ ≠ .error .AccessDenied ∧
    w.resolve_path fs ⟨none, VirtualPath.new raw⟩ =
      (if pathExists fs (w.root ++ VirtualPath.new raw)
       then .ok (w.root ++ VirtualPath.new raw)
       else .error (.NotFound (w.root ++ VirtualPath.new raw))) := by
  refine ⟨fun x hx => (VirtualPath.new_no_dots raw x hx).2, ?_, resolve_path_no_pkg w fs _⟩
  rw [resolve_path_no_pkg w fs _]
  cases hex : pathExists fs (w.root ++ VirtualPath.new raw) <;> simp

/-- C1 witness: the amended theorem applied at workspace root `/home/ws`
and written path `sub/../a.typ`, which normalises to `a.typ` and
resolves to the existing file `/home/ws/a.typ`. -/
theorem C1_resolve_workspace_witness :
    BackendWorld.resolve_path
      { root := ["home", "ws"]
        main_source := ⟨⟨none, ["main.typ"]⟩, []⟩
        main_id := ⟨none, ["main.typ"]⟩
        source_cache := []
        binary_cache := []
        package_path := none }
      (fun p => if p = ["home", "ws", "a.typ"] then some "= a".data else none)
      ⟨none, VirtualPath.new ["sub", "..", "a.typ"]⟩
      = .ok ["home", "ws", "a.typ"] :=
  (C1_resolve_workspace
    { root := ["home", "ws"]
      main_source := ⟨⟨none, ["main.typ"]⟩, []⟩
      main_id := ⟨none, ["main.typ"]⟩
      source_cache := []
      binary_cache := []
      package_path := none }
    (fun p => if p = ["home", "ws", "a.typ"] then some "= a".data else none)
    ["sub", "..", "a.typ"]).2.2.trans (by rfl)

/-! ## Claim C2: traversal inside a package specification escapes -/

/-- C2: the code contradicts the claimed sandbox invariant.  Failing
input: package repository root `/pkgs`, identity framed as package
`@../secret:0.1.0` with virtual path `lib.typ`, filesystem containing
`/secret/0.1.0/lib.typ`.  The package branch joins the components
without any containment check, so resolution SUCCEEDS with the joined
path `/pkgs/../secret/0.1.0/lib.typ` (first conjunct) — it does not fail
with `AccessDenied` (second conjunct) — although the OS-resolved target
lies outside the package root (third conjunct) and outside the workspace
root (fourth conjunct). -/
theorem C2_package_traversal_escapes :
    BackendWorld.resolve_path
      { root := ["home", "ws"]
        main_source := ⟨⟨none, ["main.typ"]⟩, []⟩
        main_id := ⟨none, ["main.typ"]⟩
        source_cache := []
        binary_cache := []
        package_path := some ["pkgs"] }
      (fun p => if p = ["secret", "0.1.0", "lib.typ"] then some "x".data else none)
      ⟨some ⟨[".."], ["secret"], ["0.1.0"]⟩, ["lib.typ"]⟩
      = .ok ["pkgs", "..", "secret", "0.1.0", "lib.typ"] ∧
    (Except.ok ["pkgs", "..", "secret", "0.1.0", "lib.typ"] : Except FileError Path)
      ≠ .error .AccessDenied ∧
    (canonicalize ["pkgs"]).isPrefixOf
      (canonicalize ["pkgs", "..", "secret", "0.1.0", "lib.typ"]) = false ∧
    (canonicalize ["home", "ws"]).isPrefixOf
      (canonicalize ["pkgs", "..", "secret", "0.1.0", "lib.typ"]) = false := by
  refine ⟨by rfl, by simp, by decide, by decide⟩

/-! ## Claim C3: package-specification resolution -/

/-- C3: for an identity with a package specification, resolution fails
with `AccessDenied` when no package-repository root is configured; with a
configured root it joins repository-root/namespace/name/version/
virtual-path, fails with `NotFound` exactly when the joined path does not
exist, and returns the joined path on success. -/
theorem C3_resolve_package (w : BackendWorld) (fs : FS) (spec : PackageSpec)
    (v : List String) :
    (w.package_path = none →
      w.resolve_path fs ⟨some spec, v⟩ = .error .AccessDenied) ∧
    (∀ pkg_root, w.package_path = some pkg_root →
      w.resolve_path fs ⟨some spec, v⟩ =
        (if pathExists fs (pkg_root ++ spec.nspace ++ spec.name ++
            spec.version ++ v)
         then .ok (pkg_root ++ spec.nspace ++ spec.name ++ spec.version ++ v)
         else .error (.NotFound (pkg_root ++ spec.nspace ++ spec.name ++
            spec.version ++ v)))) := by
  constructor
  · intro hnone
    simp [BackendWorld.resolve_path, hnone]
  · intro pkg_root hsome
    cases hex : pathExists fs (pkg_root ++ (spec.nspace ++ (spec.name ++
        (spec.version ++ v)))) <;>
      simp [BackendWorld.resolve_path, hsome, hex]

/-- C3 witness: both branches at concrete inputs — no package root
configured gives `AccessDenied`; with root `/pkgs` the existing package
file `@preview/mylib:0.1.0 / lib.typ` resolves to the joined path. -/
theorem C3_resolve_package_witness :
    BackendWorld.resolve_path
      { root := ["home", "ws"]
        main_source := ⟨⟨none, ["main.typ"]⟩, []⟩
        main_id := ⟨none, ["main.typ"]⟩
        source_cache := []
        binary_cache := []
        package_path := none }
      (fun _ => none)
      ⟨some ⟨["preview"], ["mylib"], ["0.1.0"]⟩, ["lib.typ"]⟩
      = .error .AccessDenied ∧
    BackendWorld.resolve_path
      { root := ["home", "ws"]
        main_source := ⟨⟨none, ["main.typ"]⟩, []⟩
        main_id := ⟨none, ["main.typ"]⟩
        source_cache := []
        binary_cache := []
        package_path := some ["pkgs"] }
      (fun p => if p = ["pkgs", "preview", "mylib", "0.1.0", "lib.typ"]
        then some "x".data else none)
      ⟨some ⟨["preview"], ["mylib"], ["0.1.0"]⟩, ["lib.typ"]⟩
      = .ok ["pkgs", "preview", "mylib", "0.1.0", "lib.typ"] := by
  constructor
  · exact (C3_resolve_package
      { root := ["home", "ws"]
        main_source := ⟨⟨none, ["main.typ"]⟩, []⟩
        main_id := ⟨none, ["main.typ"]⟩
        source_cache := []
        binary_cache := []
        package_path := none }
      (fun _ => none) ⟨["preview"], ["mylib"], ["0.1.0"]⟩ ["lib.typ"]).1 rfl
  · exact ((C3_resolve_package
      { root := ["home", "ws"]
        main_source := ⟨⟨none, ["main.typ"]⟩, []⟩
        main_id := ⟨none, ["main.typ"]⟩
        source_cache := []
        binary_cache := []
        package_path := some ["pkgs"] }
      (fun p => if p = ["pkgs", "preview", "mylib", "0.1.0", "lib.typ"]
        then some "x".data else none)
      ⟨["preview"], ["mylib"], ["0.1.0"]⟩ ["lib.typ"]).2 ["pkgs"] rfl).trans
      (by rfl)

/-! ## Sample values for concrete witnesses -/

/-- Sample host state: workspace `/home/ws`, main text `abc\ndef`. -/
def sampleWorld : BackendWorld where
  root := ["home", "ws"]
  main_source := ⟨⟨none, ["main.typ"]⟩, "abc\ndef".data⟩
  main_id := ⟨none, ["main.typ"]⟩
  source_cache := []
  binary_cache := []
  package_path := none

/-- Empty filesystem. -/
def emptyFS : FS := fun _ => none

/-- A sample error diagnostic with an unresolvable span. -/
def sampleErrorDiag : SourceDiagnostic where
  severity := .Error
  span := { id := none, range := none }
  message := "expected expression"
  hints := []

/-- A sample warning diagnostic with an unresolvable span. -/
def sampleWarningDiag : SourceDiagnostic where
  severity := .Warning
  span := { id := none, range := none }
  message := "unused variable"
  hints := []

/-! ## Claim C4: shape of the compile result -/

/-- C4: on success, `compile` reports success with the wrapped document
and a diagnostic list holding exactly the converted warnings; on failure
it reports failure, no document, and the converted errors followed by the
converted warnings. -/
theorem C4_compile_diagnostics (w : BackendWorld) (fs : FS)
    (warned : Warned PagedDocument) :
    (∀ document, warned.output = .ok document →
      (w.compile fs warned).success = true ∧
      (w.compile fs warned).document = some ⟨document⟩ ∧
      (w.compile fs warned).diagnostics =
        warned.warnings.map (fun diag => convert_diagnostic fs diag w)) ∧
    (∀ errors, warned.output = .error errors →
      (w.compile fs warned).success = false ∧
      (w.compile fs warned).document = none ∧
      (w.compile fs warned).diagnostics =
        errors.map (fun diag => convert_diagnostic fs diag w) ++
          warned.warnings.map (fun diag => convert_diagnostic fs diag w)) := by
  constructor
  · intro document hout
    simp [BackendWorld.compile, hout]
  · intro errors hout
    simp [BackendWorld.compile, hout]

/-- C4 witness: a failed compilation with one error and one warning
yields failure, no document, and the error first. -/
theorem C4_compile_diagnostics_witness :
    (sampleWorld.compile emptyFS
      { output := .error [sampleErrorDiag], warnings := [sampleWarningDiag] }).success
        = false ∧
    (sampleWorld.compile emptyFS
      { output := .error [sampleErrorDiag], warnings := [sampleWarningDiag] }).document
        = none ∧
    (sampleWorld.compile emptyFS
      { output := .error [sampleErrorDiag], warnings := [sampleWarningDiag] }).diagnostics
        = [⟨.Error, "expected expression", none⟩,
           ⟨.Warning, "unused variable", none⟩] := by
  have h := (C4_compile_diagnostics sampleWorld emptyFS
    { output := .error [sampleErrorDiag], warnings := [sampleWarningDiag] }).2
    [sampleErrorDiag] rfl
  exact ⟨h.1, h.2.1, h.2.2.trans (by rfl)⟩

/-! ## Claim C5: document pointer non-null iff success -/

/-- C5: in every `CompileResult` produced by `CompilerInstance::compile`
(and likewise in the backend result it wraps), the document pointer is
non-null exactly when the success flag is true. -/
theorem C5_document_iff_success (w : BackendWorld) (fs : FS)
    (warned : Warned PagedDocument) :
    ((CompilerInstance.compile w fs warned).document.isSome = true ↔
      (CompilerInstance.compile w fs warned).success = true) ∧
    ((w.compile fs warned).document.isSome = true ↔
      (w.compile fs warned).success = true) := by
  cases hout : warned.output <;>
    simp [CompilerInstance.compile, BackendWorld.compile, hout]

/-! ## Claim C7: diagnostics boundary array -/

/-- C7: converting an empty diagnostic collection yields a null pointer
and zero count; a non-empty collection yields a non-null pointer and a
count equal to its length. -/
theorem C7_diagnostics_to_array (diagnostics : List Diagnostic) :
    diagnostics_to_array [] = (none, 0) ∧
    (diagnostics ≠ [] →
      (diagnostics_to_array diagnostics).1.isSome = true ∧
      (diagnostics_to_array diagnostics).2 = diagnostics.length) := by
  refine ⟨rfl, fun h => ?_⟩
  rw [diagnostics_to_array, if_neg (by simpa using h)]
  exact ⟨rfl, rfl⟩

/-- C7 witness: a one-element collection gives a non-null pointer and
count 1. -/
theorem C7_diagnostics_to_array_witness :
    (diagnostics_to_array [create_diagnostic .Error "e" none]).1.isSome = true ∧
    (diagnostics_to_array [create_diagnostic .Error "e" none]).2 = 1 :=
  (C7_diagnostics_to_array [create_diagnostic .Error "e" none]).2 (by simp)

/-! ## Claim C8: out-of-bounds page render -/

/-- C8: rendering a page at an index at or past the page count is a typed
error in the backend (the functions are total, so no panic is modelled or
possible), and crosses the boundary as the null/empty Buffer, both at the
document layer and at the public C surface. -/
theorem C8_render_page_out_of_bounds (svgF : Page → List Nat)
    (d : BackendDocument) (page_index : Nat)
    (h : d.page_count ≤ page_index) :
    (∃ msg, d.render_page_svg svgF page_index = .error msg) ∧
    document_render_page_svg svgF (some ⟨d⟩) page_index = { data := none, len := 0 } ∧
    typst_net_document_render_svg_page svgF (some ⟨d⟩) page_index
      = { data := none, len := 0 } := by
  have h2 : d.inner.pages.length ≤ page_index := h
  have herr : d.render_page_svg svgF page_index =
      .error ("Page index " ++ toString page_index ++
        " out of bounds (document has " ++ toString d.inner.pages.length ++
        " pages)") := by
    unfold BackendDocument.render_page_svg
    rw [dif_pos h2]
  refine ⟨⟨_, herr⟩, ?_, ?_⟩ <;>
    simp [document_render_page_svg, typst_net_document_render_svg_page,
      herr, nullBuffer]

/-- C8 witness: rendering page 99 of a 1-page document fails with the
null Buffer at the boundary. -/
theorem C8_render_page_out_of_bounds_witness :
    (∃ msg, BackendDocument.render_page_svg (fun _ => []) ⟨⟨[⟨0⟩]⟩⟩ 99
      = .error msg) ∧
    document_render_page_svg (fun _ => []) (some ⟨⟨⟨[⟨0⟩]⟩⟩⟩) 99
      = { data := none, len := 0 } ∧
    typst_net_document_render_svg_page (fun _ => []) (some ⟨⟨⟨[⟨0⟩]⟩⟩⟩) 99
      = { data := none, len := 0 } :=
  C8_render_page_out_of_bounds (fun _ => []) ⟨⟨[⟨0⟩]⟩⟩ 99 (by decide)

/-! ## Claim C10: null document pointer at the public boundary -/

/-- C10: every document operation at the public boundary maps a null
document pointer to a harmless empty value: page count 0, null Buffer
for single-page and PDF renders, null BufferArray for render-all. -/
theorem C10_null_document_operations (svgF : Page → List Nat)
    (pdfF : PagedDocument → Except (List String) (List Nat))
    (page_index : Nat) :
    typst_net_document_page_count none = 0 ∧
    typst_net_document_render_svg_page svgF none page_index
      = { data := none, len := 0 } ∧
    typst_net_document_render_pdf pdfF none = { data := none, len := 0 } ∧
    typst_net_document_render_svg_all svgF none
      = { buffers := none, len := 0 } :=
  ⟨rfl, rfl, rfl, rfl⟩

/-! ## Helper lemmas on line/column mapping -/

theorem zero_mem_lineStarts (t : Text) : (0 : Nat) ∈ lineStarts t := by
  simp [lineStarts]

theorem byte_to_line_lt (t : Text) (b l : Nat)
    (h : byte_to_line t b = some l) : l < (lineStarts t).length := by
  unfold byte_to_line at h
  by_cases hb : b ≤ t.length
  · rw [if_pos hb] at h
    injection h with h
    have hle : ((lineStarts t).filter (fun s => s ≤ b)).length ≤
        (lineStarts t).length := List.length_filter_le _ _
    have h0 : (0 : Nat) ∈ (lineStarts t).filter (fun s => s ≤ b) :=
      List.mem_filter.2 ⟨zero_mem_lineStarts t, by simp⟩
    have hpos := List.length_pos_of_mem h0
    omega
  · rw [if_neg hb] at h
    exact absurd h (by simp)

/-- In the character-granularity model, whenever `byte_to_line` succeeds,
`byte_to_column` succeeds as well (the line start it needs exists). -/
theorem byte_to_column_of_line (t : Text) (b l : Nat)
    (h : byte_to_line t b = some l) :
    ∃ c, byte_to_column t b = some c := by
  have hlt := byte_to_line_lt t b l h
  refine ⟨b - (lineStarts t).get ⟨l, hlt⟩, ?_⟩
  unfold byte_to_column line_to_byte
  rw [h]
  simp [List.get?_eq_getElem?, List.getElem?_eq_getElem hlt, List.get_eq_getElem]

/-! ## Claim C6: diagnostic location translation -/

/-- C6: when a diagnostic's span resolves to a source and a byte range
within it, the reported location is exactly the engine's 0-based line and
column of the range start, each incremented by 1, with the byte-range
width as length; when resolution fails at any step (no span id, source
lookup failure, unresolvable range, or unmapped start offset) the
location is absent — never a sentinel non-zero value. -/
theorem C6_diagnostic_location (fs : FS) (diag : SourceDiagnostic)
    (world : BackendWorld) :
    (∀ id source rstart rend,
      diag.span.id = some id →
      (world.source fs id).1 = .ok source →
      source.range diag.span = some (rstart, rend) →
      rstart ≤ source.text.length →
      ∃ l c, byte_to_line source.text rstart = some l ∧
        byte_to_column source.text rstart = some c ∧
        (convert_diagnostic fs diag world).location =
          some ⟨l + 1, c + 1, rend - rstart⟩) ∧
    (diag.span.id = none →
      (convert_diagnostic fs diag world).location = none) ∧
    (∀ id e, diag.span.id = some id → (world.source fs id).1 = .error e →
      (convert_diagnostic fs diag world).location = none) ∧
    (∀ id source, diag.span.id = some id →
      (world.source fs id).1 = .ok source →
      source.range diag.span = none →
      (convert_diagnostic fs diag world).location = none) ∧
    (∀ id source rstart rend, diag.span.id = some id →
      (world.source fs id).1 = .ok source →
      source.range diag.span = some (rstart, rend) →
      byte_to_line source.text rstart = none →
      (convert_diagnostic fs diag world).location = none) := by
  refine ⟨?_, ?_, ?_, ?_, ?_⟩
  · intro id source rstart rend hid hsource hrange hlen
    have hline : byte_to_line source.text rstart =
        some (((lineStarts source.text).filter
          (fun s => s ≤ rstart)).length - 1) := by
      unfold byte_to_line
      rw [if_pos hlen]
    rcases byte_to_column_of_line source.text rstart _ hline with ⟨c, hcol⟩
    refine ⟨_, c, hline, hcol, ?_⟩
    simp [convert_diagnostic, hid, hsource, hrange, hline, hcol]
  · intro hid
    simp [convert_diagnostic, hid]
  · intro id e hid hsource
    simp [convert_diagnostic, hid, hsource]
  · intro id source hid hsource hrange
    simp [convert_diagnostic, hid, hsource, hrange]
  · intro id source rstart rend hid hsource hrange hline
    have hcol : byte_to_column source.text rstart = none := by
      unfold byte_to_column
      rw [hline]
    simp [convert_diagnostic, hid, hsource, hrange, hline, hcol]

/-- C6 witness: a span into the main source `abc\ndef` starting at offset
4 (the `d` on the second line) with range `(4, 6)` is reported at line 2,
column 1, length 2. -/
theorem C6_diagnostic_location_witness :
    (convert_diagnostic emptyFS
      { severity := .Warning
        span := { id := some ⟨none, ["main.typ"]⟩, range := some (4, 6) }
        message := "unclosed delimiter"
        hints := [] }
      sampleWorld).location = some ⟨2, 1, 2⟩ := by
  obtain ⟨l, c, hl, hc, hloc⟩ := (C6_diagnostic_location emptyFS
    { severity := .Warning
      span := { id := some ⟨none, ["main.typ"]⟩, range := some (4, 6) }
      message := "unclosed delimiter"
      hints := [] }
    sampleWorld).1 ⟨none, ["main.typ"]⟩ sampleWorld.main_source 4 6
    rfl rfl rfl (by decide)
  have hl2 : some l = some (1 : Nat) := hl.symm.trans (by decide)
  have hc2 : some c = some (0 : Nat) := hc.symm.trans (by decide)
  injection hl2 with hl3
  injection hc2 with hc3
  subst hl3
  subst hc3
  exact hloc

/-! ## Claim C9: frame property of the text-source capability -/

/-- C9: resolving a text source never changes the Host state (the method
only reads; in particular nothing is inserted into the source cache); the
main identity is answered from the in-memory main text independently of
the filesystem; any other identity missing from the cache is read from
the filesystem as it is at call time (re-read on every miss). -/
theorem C9_source_frame (fs fs2 : FS) (w : BackendWorld) (id : FileId) :
    (w.source fs id).2 = w ∧
    (id = w.main_id →
      (w.source fs id).1 = .ok w.main_source ∧
      w.source fs id = w.source fs2 id) ∧
    (id ≠ w.main_id → w.source_cache.lookup id = none →
      ∀ path text, w.resolve_path fs id = .ok path →
        fs (canonicalize path) = some text →
        (w.source fs id).1 = .ok ⟨id, text⟩) := by
  refine ⟨?_, ?_, ?_⟩
  · unfold BackendWorld.source
    split
    · rfl
    · split
      · rfl
      · split
        · rfl
        · split <;> rfl
  · intro h
    constructor
    · unfold BackendWorld.source
      rw [if_pos h]
    · unfold BackendWorld.source
      rw [if_pos h, if_pos h]
  · intro hne hcache path text hres hread
    simp [BackendWorld.source, if_neg hne, hcache, hres, hread]

/-- C9 witness: the main identity is served from memory on the empty
filesystem, and a non-main identity is read from the filesystem content
present at call time. -/
theorem C9_source_frame_witness :
    (sampleWorld.source emptyFS ⟨none, ["main.typ"]⟩).1
      = .ok sampleWorld.main_source ∧
    (sampleWorld.source
      (fun p => if p = ["home", "ws", "other.typ"] then some "= x".data else none)
      ⟨none, ["other.typ"]⟩).1
      = .ok ⟨⟨none, ["other.typ"]⟩, "= x".data⟩ := by
  constructor
  · exact ((C9_source_frame emptyFS emptyFS sampleWorld
      ⟨none, ["main.typ"]⟩).2.1 rfl).1
  · exact (C9_source_frame
      (fun p => if p = ["home", "ws", "other.typ"] then some "= x".data else none)
      emptyFS sampleWorld ⟨none, ["other.typ"]⟩).2.2 (by decide) rfl
      ["home", "ws", "other.typ"] "= x".data (by rfl) (by rfl)

end TypstNet
